import Mathlib

/-!
Verification of the instance re-identification and virtual-camera tracking
engine of the video-cursor repository, embedded shallowly from
`src/object.py` (ObjectTracker, ObjectProcessor) and `src/face_processor.py`
(FaceTracker, FaceProcessor).

Numeric conventions: Python floats are modelled as exact rationals; Python
`int(x)` (truncation toward zero) is `pyInt`; Python `//` on non-negative
integers is Nat division.  The only irrational operation in the engine is
`np.sqrt` on a squared pixel distance; it is modelled by `sqrtQ`, the
integer square root of the (integer) radicand.  `sqrtQ` agrees with the
floating-point source in every comparison the engine performs
(`d > 50  iff  d*d > 2500` and `min(0.3, d/200) = 0.3  iff  d*d >= 3600`)
and at perfect squares; it floors the distance otherwise.
-/

namespace VideoCursor

/-- Python `int()` on a rational: truncation toward zero. -/
def pyInt (q : ℚ) : ℤ := if 0 ≤ q then ⌊q⌋ else ⌈q⌉

/-- Integer square root of a rational radicand, as a rational (model of
`np.sqrt` applied to an integer squared distance; see file header). -/
def sqrtQ (q : ℚ) : ℚ := (Nat.sqrt ⌊q⌋.toNat : ℚ)

/-- One detection as produced by the detection backends in `object.py`:
bounding box in pixel space, class label and confidence.  Coordinates are
non-negative (the backends clamp or produce non-negative boxes). -/
structure Detection where
  idx : ℕ
  x : ℕ
  y : ℕ
  w : ℕ
  h : ℕ
  className : String
  confidence : ℚ
deriving DecidableEq, Repr

/-- Bounding-box area `w * h` used by `_find_largest_person`. -/
def areaD (d : Detection) : ℕ := d.w * d.h

/-- Bounding-box center `(x + w//2, y + h//2)` as in `find_target_object`. -/
def detCenter (d : Detection) : ℤ × ℤ := ((d.x + d.w / 2 : ℕ), (d.y + d.h / 2 : ℕ))

/-- `max(iterable, key)` keeping the first maximal element, as Python's
`max` does: later elements replace the current best only on a strict
increase of the key. -/
def maxByFirst (key : Detection → ℕ) (a : Detection) (l : List Detection) : Detection :=
  l.foldl (fun b d => if key b < key d then d else b) a

/-- `ObjectTracker._find_largest_person`: the largest-area detection with
class `person`, else the first detection, else `none`. -/
def findLargestPerson (dets : List Detection) : Option Detection :=
  match dets.filter (fun d => d.className = "person") with
  | [] => dets.head?
  | p :: ps => some (maxByFirst areaD p ps)

/-- `ObjectTracker._update_center`: append, then pop the oldest entry when
the history exceeds 10 entries. -/
def updateCenter (hist : List (ℤ × ℤ)) (c : ℤ × ℤ) : List (ℤ × ℤ) :=
  if 10 < (hist ++ [c]).length then (hist ++ [c]).tail else hist ++ [c]

/-- `ObjectTracker._get_last_center`: the most recent entry of the center
history, if any. -/
def lastCenter (hist : List (ℤ × ℤ)) : Option (ℤ × ℤ) := hist.getLast?

/-- Number of pixel rows of the crop `frame[y:y+h, x:x+w]` for a frame with
`H` rows (Python slices clip at the array bound). -/
def regionRows (H : ℕ) (d : Detection) : ℕ := min (d.y + d.h) H - d.y

/-- Number of pixel columns of the crop `frame[y:y+h, x:x+w]` for a frame
with `W` columns. -/
def regionCols (W : ℕ) (d : Detection) : ℕ := min (d.x + d.w) W - d.x

/-- `obj_region.size != 0`: the cropped region of the detection is
non-empty inside a `W x H` frame. -/
def regionNonempty (W H : ℕ) (d : Detection) : Prop :=
  0 < regionRows H d ∧ 0 < regionCols W d

instance (W H : ℕ) (d : Detection) : Decidable (regionNonempty W H d) := by
  unfold regionNonempty; infer_instance

/-- `ObjectTracker.tracking_threshold` (0.3). -/
def trackingThreshold : ℚ := 3/10

/-- `ObjectTracker.position_weight` (0.4). -/
def positionWeight : ℚ := 2/5

/-- Positional continuity score of a candidate detection:
`max(0, 1 - distance / max(frame.shape[0], frame.shape[1]))` against the
last entry of the center history, or `1.0` when there is no history. -/
def positionScore (W H : ℕ) (hist : List (ℤ × ℤ)) (d : Detection) : ℚ :=
  match lastCenter hist with
  | none => 1
  | some c =>
    let cc := detCenter d
    let d2 : ℤ := (cc.1 - c.1) ^ 2 + (cc.2 - c.2) ^ 2
    let maxDistance : ℚ := ((max H W : ℕ) : ℚ)
    max 0 (1 - sqrtQ (d2 : ℚ) / maxDistance)

/-- Combined matching score
`(1 - position_weight) * feature_score + position_weight * position_score`.
The appearance similarity (histogram correlation of the candidate crop
against the stored template, with NaN mapped to 0) is supplied as the
function `fs`, since it is external numerics over pixel data. -/
def combinedScore (fs : Detection → ℚ) (W H : ℕ) (hist : List (ℤ × ℤ))
    (d : Detection) : ℚ :=
  (1 - positionWeight) * fs d + positionWeight * positionScore W H hist d

/-- One iteration of the candidate loop in
`ObjectTracker.find_target_object` (named so the fold can be reasoned
about; `trackLoop` below is the loop itself). -/
def trackStep (fs : Detection → ℚ) (W H : ℕ) (hist : List (ℤ × ℤ))
    (acc : Option Detection × ℚ) (d : Detection) : Option Detection × ℚ :=
  if regionNonempty W H d then
    if acc.2 < combinedScore fs W H hist d ∧
        trackingThreshold < combinedScore fs W H hist d then
      (some d, combinedScore fs W H hist d)
    else acc
  else acc

/-- The candidate-selection loop of `ObjectTracker.find_target_object`:
skip detections with an empty crop, keep the running best match, replacing
it only when the combined score strictly exceeds both the running best
score and the tracking threshold. -/
def trackLoop (fs : Detection → ℚ) (W H : ℕ) (hist : List (ℤ × ℤ))
    (dets : List Detection) : Option Detection × ℚ :=
  dets.foldl (trackStep fs W H hist) (none, 0)

/-- `ObjectTracker.find_target_object`, state-passing on the center history
of the target.  `targetKnown` is `target_object_id is not None and the id
has a stored template`.  On acceptance the accepted detection's center is
appended to the history; otherwise the result falls back to
`_find_largest_person` and the history is untouched. -/
def findTargetObject (targetKnown : Bool) (fs : Detection → ℚ) (W H : ℕ)
    (hist : List (ℤ × ℤ)) (dets : List Detection) :
    Option Detection × List (ℤ × ℤ) :=
  if targetKnown = false then
    ((if dets.isEmpty then none else findLargestPerson dets), hist)
  else
    match (trackLoop fs W H hist dets).1 with
    | some m => (some m, updateCenter hist (detCenter m))
    | none => (findLargestPerson dets, hist)

/-- `FaceTracker.find_target_face` from `face_processor.py`: with no known
target it returns the first face; otherwise it keeps the face whose
histogram-correlation score (supplied as `score`) strictly exceeds the
running best and `0.6`, returning `none` when no face qualifies.  It never
touches the center history. -/
def findTargetFace (score : ℕ × ℕ × ℕ × ℕ → ℚ) (targetKnown : Bool)
    (faces : List (ℕ × ℕ × ℕ × ℕ)) : Option (ℕ × ℕ × ℕ × ℕ) :=
  if targetKnown = false then faces.head?
  else
    (faces.foldl
      (fun acc f =>
        let sc := score f
        if acc.2 < sc ∧ 3/5 < sc then (some f, sc) else acc)
      (none, 0)).1

/-- `FaceTracker.find_target_face` with the tracker's
`face_centers_history` made explicit: the method reads no history and the
field is never written anywhere in `face_processor.py` (it is only
initialized), so the history passes through unchanged. -/
def findTargetFaceS (score : ℕ × ℕ × ℕ × ℕ → ℚ) (targetKnown : Bool)
    (hist : List (ℤ × ℤ)) (faces : List (ℕ × ℕ × ℕ × ℕ)) :
    Option (ℕ × ℕ × ℕ × ℕ) × List (ℤ × ℤ) :=
  (findTargetFace score targetKnown faces, hist)

/-- The virtual-camera state held by `FaceProcessor` / `ObjectProcessor`:
`prev_center_x`, `prev_center_y` (Python ints), `current_zoom` and
`zoom_momentum` (Python floats). -/
structure CameraState where
  cx : ℤ
  cy : ℤ
  zoom : ℚ
  momentum : ℚ
deriving DecidableEq, Repr

/-- The initial camera state: frame center, zoom `1.0`, momentum `0.0`. -/
def initialCamera (W H : ℕ) : CameraState :=
  { cx := (W / 2 : ℕ), cy := (H / 2 : ℕ), zoom := 1, momentum := 0 }

/-- `momentum_factor`: `min(0.3, d/200)` when the center distance `d`
exceeds 50 pixels, else `0.08`; expressed on the squared distance `d2`
(`d > 50 iff d2 > 2500`), with `sqrtQ` for the value of `d`. -/
def momentumFactor (d2 : ℚ) : ℚ :=
  if 2500 < d2 then min (3/10) (sqrtQ d2 / 200) else 8/100

/-- `FaceProcessor._apply_zoom_to_face` / `ObjectProcessor._apply_zoom_to_object`
state update for a matched bounding box `(x, y, w, h)`: distance-adaptive
momentum smoothing of the center and exponential blend of the zoom toward
the configured `zoom_factor`.  New centers pass through `int()`. -/
def applyZoomToFace (zoomFactor : ℚ) (s : CameraState) (x y w h : ℕ) :
    CameraState :=
  let ocx : ℤ := (x + w / 2 : ℕ)
  let ocy : ℤ := (y + h / 2 : ℕ)
  let d2 : ℚ := (((ocx - s.cx) ^ 2 + (ocy - s.cy) ^ 2 : ℤ) : ℚ)
  let m := (85/100) * s.momentum + (15/100) * momentumFactor d2
  let sm := max (5/100) (min (25/100) m)
  { cx := pyInt ((1 - sm) * (s.cx : ℚ) + sm * (ocx : ℚ)),
    cy := pyInt ((1 - sm) * (s.cy : ℚ) + sm * (ocy : ℚ)),
    zoom := (1 - 12/100) * s.zoom + (12/100) * zoomFactor,
    momentum := m }

/-- `FaceProcessor._handle_no_faces` / `ObjectProcessor._handle_no_objects`:
decay the zoom toward 1.0 (never below), damp the momentum, and pull the
center 2% toward the frame's geometric center (through `int()`). -/
def handleNoObjects (W H : ℕ) (s : CameraState) : CameraState :=
  { zoom := max 1 (s.zoom * (92/100)),
    momentum := s.momentum * (9/10),
    cx := pyInt ((1 - 2/100) * (s.cx : ℚ) + (2/100) * ((W / 2 : ℕ) : ℚ)),
    cy := pyInt ((1 - 2/100) * (s.cy : ℚ) + (2/100) * ((H / 2 : ℕ) : ℚ)) }

/-- `FaceProcessor._apply_zoom` / `ObjectProcessor._apply_zoom` crop
rectangle `(crop_x, crop_y, crop_width, crop_height)`:
size = `int(frame_size / zoom)`, top-left = center minus half the crop
size, clamped into the frame. -/
def applyZoomCrop (W H : ℕ) (cx cy : ℤ) (zoom : ℚ) : ℤ × ℤ × ℤ × ℤ :=
  let cropWidth := pyInt ((W : ℚ) / zoom)
  let cropHeight := pyInt ((H : ℚ) / zoom)
  let cropX := max 0 (min (cx - cropWidth / 2) ((W : ℤ) - cropWidth))
  let cropY := max 0 (min (cy - cropHeight / 2) ((H : ℤ) - cropHeight))
  (cropX, cropY, cropWidth, cropHeight)

/-- End-to-end scenario A step: one frame of a 640x480 video whose single
detection is the stationary box `(100, 100, 50, 50)`, with
`zoom_factor = 2.0`; `_process_frame` selects that box (single face, no
designated target) and advances the camera by `_apply_zoom_to_face`. -/
def scenarioAStep (s : CameraState) : CameraState :=
  applyZoomToFace 2 s 100 100 50 50

/-- Camera state of scenario A after `n` frames, starting from the initial
state of a 640x480 frame. -/
def scenarioAState (n : ℕ) : CameraState :=
  scenarioAStep^[n] (initialCamera 640 480)



/-! Detection-backend construction (`ObjectProcessor.__init__`,
`FaceProcessor.__init__`). -/

/-- The two requestable detection strategies of `EngineConfig.detection_type`. -/
inductive DetectionType
  | faces
  | objects
deriving DecidableEq, Repr

/-- The three face-detection engines tried in order by
`ObjectProcessor.__init__` (mediapipe, then mtcnn, then the OpenCV Haar
cascade, which ships with cv2 and needs no optional dependency). -/
inductive FaceEngine
  | mediapipeDetector
  | mtcnnDetector
  | haarCascade
deriving DecidableEq, Repr

/-- A constructed detection backend. -/
inductive Backend
  | faceBackend (e : FaceEngine)
  | yoloBackend
deriving DecidableEq, Repr

/-- Availability of the optional dependencies (`MEDIAPIPE_AVAILABLE`,
`MTCNN_AVAILABLE`, `YOLO_AVAILABLE` import flags). -/
structure DepsAvail where
  mediapipe : Bool
  mtcnn : Bool
  yolo : Bool
deriving DecidableEq, Repr

/-- The construction-time failure: `ImportError` raised when object
detection is requested and ultralytics is unavailable. -/
inductive ConfigError
  | yoloUnavailable
deriving DecidableEq, Repr

/-- Backend selection of `ObjectProcessor.__init__`: for faces, the first
available face engine (falling through to the always-present Haar
cascade); for objects, YOLO or an `ImportError`. -/
def constructBackend (dt : DetectionType) (deps : DepsAvail) :
    Except ConfigError Backend :=
  match dt with
  | .faces =>
    if deps.mediapipe then .ok (.faceBackend .mediapipeDetector)
    else if deps.mtcnn then .ok (.faceBackend .mtcnnDetector)
    else .ok (.faceBackend .haarCascade)
  | .objects =>
    if deps.yolo then .ok .yoloBackend
    else .error .yoloUnavailable

/-- The detection strategy a constructed backend implements. -/
def backendDomain : Backend → DetectionType
  | .faceBackend _ => .faces
  | .yoloBackend => .objects

/-- The selection rule named by the claim on the default path, transcribed
from its words: the detection with the highest confidence times area
(first maximal), or `none` on an empty list; for comparison with the
default rule the source actually implements. -/
def highestConfArea (dets : List Detection) : Option Detection :=
  match dets with
  | [] => none
  | d :: ds =>
    some (ds.foldl
      (fun b e =>
        if b.confidence * (areaD b : ℚ) < e.confidence * (areaD e : ℚ) then e else b)
      d)


/-- Real-valued camera advance transcribed from the wording of the spec
(momentum update, smoothing clamp, new center as an exact convex
combination, new zoom as an exponential blend), for refinement comparison
with `applyZoomToFace`.  Distance comparisons are encoded on the squared
distance exactly as in the model of the source. -/
structure SpecCamera where
  cx : ℚ
  cy : ℚ
  zoom : ℚ
  momentum : ℚ
deriving DecidableEq, Repr

/-- Spec wording: `momentum_factor = min(0.3, d/200) if d > 50 else 0.08`;
`momentum = 0.85*momentum + 0.15*momentum_factor`;
`smoothing = clamp(momentum, 0.05, 0.25)`;
new center `= (1-smoothing)*previous_center + smoothing*(cx,cy)` per axis;
new zoom `= (1-0.12)*previous_zoom + 0.12*configured_zoom_factor`. -/
def specCameraAdvance (zoomFactor : ℚ) (s : SpecCamera) (t : ℚ × ℚ) : SpecCamera :=
  let d2 := (t.1 - s.cx) ^ 2 + (t.2 - s.cy) ^ 2
  let mf := if 2500 < d2 then min (3/10) (sqrtQ d2 / 200) else 8/100
  let m := (85/100) * s.momentum + (15/100) * mf
  let sm := max (5/100) (min (25/100) m)
  { cx := (1 - sm) * s.cx + sm * t.1,
    cy := (1 - sm) * s.cy + sm * t.2,
    zoom := (1 - 12/100) * s.zoom + (12/100) * zoomFactor,
    momentum := m }



/-! Region blur (`ObjectProcessor._apply_blur_to_objects` /
`FaceProcessor._apply_blur_to_faces`).  A frame is a pixel function
`(col, row) → value`; the Gaussian kernel itself is external numerics over
pixel data and is supplied as `blurFn`, acting on the extracted crop in
crop-relative coordinates. -/

/-- Membership in the written region of the in-place assignment
`frame[y:y+h, x:x+w] = blurred` on a `W x H` frame (Python slices clip at
the array bounds). -/
def inRegion (W H : ℕ) (d : Detection) (p : ℕ × ℕ) : Prop :=
  d.x ≤ p.1 ∧ p.1 < min (d.x + d.w) W ∧ d.y ≤ p.2 ∧ p.2 < min (d.y + d.h) H

instance (W H : ℕ) (d : Detection) (p : ℕ × ℕ) : Decidable (inRegion W H d p) := by
  unfold inRegion
  infer_instance

/-- One in-place region blur:
`obj_region = frame[y:y+h, x:x+w]`; `blurred = blur(obj_region)`;
`frame[y:y+h, x:x+w] = blurred`. -/
def blurRegion (blurFn : (ℕ × ℕ → ℤ) → (ℕ × ℕ → ℤ)) (W H : ℕ)
    (frame : ℕ × ℕ → ℤ) (d : Detection) : ℕ × ℕ → ℤ :=
  fun p =>
    if inRegion W H d p then
      blurFn (fun q => frame (d.x + q.1, d.y + q.2)) (p.1 - d.x, p.2 - d.y)
    else frame p

/-- `_apply_blur_to_objects`: with a designated target
(`target_object_id is not None`, `targetSet`) blur every detection other
than the matched target in place; with no designated target blur every
detection. -/
def applyBlurToObjects (blurFn : (ℕ × ℕ → ℤ) → (ℕ × ℕ → ℤ)) (W H : ℕ)
    (frame : ℕ × ℕ → ℤ) (dets : List Detection) (targetSet : Bool)
    (target : Detection) : ℕ × ℕ → ℤ :=
  if targetSet then
    dets.foldl
      (fun f d => if d ≠ target then blurRegion blurFn W H f d else f) frame
  else
    dets.foldl (fun f d => blurRegion blurFn W H f d) frame

/-- `applyBlurToObjects` instrumented with a ghost mask of written pixels:
the frame component coincides with `applyBlurToObjects` (proved below) and
the mask records the pixels covered by some blur write. -/
def applyBlurMarked (blurFn : (ℕ × ℕ → ℤ) → (ℕ × ℕ → ℤ)) (W H : ℕ)
    (frame : ℕ × ℕ → ℤ) (dets : List Detection) (targetSet : Bool)
    (target : Detection) : (ℕ × ℕ → ℤ) × (ℕ × ℕ → Bool) :=
  if targetSet then
    dets.foldl
      (fun fm d =>
        if d ≠ target then
          (blurRegion blurFn W H fm.1 d,
            fun p => fm.2 p || decide (inRegion W H d p))
        else fm)
      (frame, fun _ => false)
  else
    dets.foldl
      (fun fm d =>
        (blurRegion blurFn W H fm.1 d,
          fun p => fm.2 p || decide (inRegion W H d p)))
      (frame, fun _ => false)

/-! Evaluation helpers for concrete camera computations. -/

lemma pyInt_eq {q : ℚ} {n : ℤ} (h0 : 0 ≤ q) (h1 : (n : ℚ) ≤ q) (h2 : q < n + 1) :
    pyInt q = n := by
  unfold pyInt
  rw [if_pos h0]
  exact Int.floor_eq_iff.mpr ⟨h1, h2⟩

lemma sqrtQ_natCast (n : ℕ) : sqrtQ (n : ℚ) = (Nat.sqrt n : ℚ) := by
  unfold sqrtQ
  rw [Int.floor_natCast, Int.toNat_natCast]

lemma momentumFactor_big {n : ℕ} (h : 3600 ≤ n) :
    momentumFactor (n : ℚ) = 3/10 := by
  unfold momentumFactor
  rw [if_pos, sqrtQ_natCast, min_eq_left]
  · have h60 : (60 : ℕ) ≤ Nat.sqrt n := Nat.le_sqrt.mpr (by omega)
    have h60q : (60 : ℚ) ≤ (Nat.sqrt n : ℚ) := by exact_mod_cast h60
    linarith
  · have hq : (3600 : ℚ) ≤ (n : ℚ) := by exact_mod_cast h
    linarith

lemma momentumFactor_small {q : ℚ} (h : q ≤ 2500) : momentumFactor q = 8/100 := by
  unfold momentumFactor
  rw [if_neg (not_lt.mpr h)]

lemma applyZoomToFace_eval (zf : ℚ) (s : CameraState) (x y w h : ℕ)
    (mf m2 sm nz : ℚ) (ncx ncy : ℤ)
    (hmf : momentumFactor (((((x + w / 2 : ℕ) : ℤ) - s.cx) ^ 2 +
      ((((y + h / 2 : ℕ) : ℤ)) - s.cy) ^ 2 : ℤ) : ℚ) = mf)
    (hm2 : (85/100) * s.momentum + (15/100) * mf = m2)
    (hsm : max (5/100) (min (25/100) m2) = sm)
    (hx : pyInt ((1 - sm) * (s.cx : ℚ) + sm * ((((x + w / 2 : ℕ) : ℤ)) : ℚ)) = ncx)
    (hy : pyInt ((1 - sm) * (s.cy : ℚ) + sm * ((((y + h / 2 : ℕ) : ℤ)) : ℚ)) = ncy)
    (hz : (1 - 12/100) * s.zoom + (12/100) * zf = nz) :
    applyZoomToFace zf s x y w h = ⟨ncx, ncy, nz, m2⟩ := by
  subst hmf hm2 hsm hx hy hz
  rfl

lemma sA1 : scenarioAState 1 = ⟨310, 234, 28/25, 9/200⟩ := by
  have hit : scenarioAState 1 = scenarioAStep (scenarioAState 0) :=
    Function.iterate_succ_apply' _ _ _
  rw [hit]
  have h0 : scenarioAState 0 = ⟨320, 240, 1, 0⟩ := rfl
  rw [h0]
  show applyZoomToFace 2 ⟨320, 240, 1, 0⟩ 100 100 50 50 = _
  refine applyZoomToFace_eval 2 ⟨320, 240, 1, 0⟩ 100 100 50 50
    (3/10) (9/200) (1/20) (28/25) 310 234 ?_ (by norm_num) (by norm_num)
    (pyInt_eq (by norm_num) (by norm_num) (by norm_num))
    (pyInt_eq (by norm_num) (by norm_num) (by norm_num))
    (by norm_num)
  have harg : (((((100 + 50 / 2 : ℕ) : ℤ) - (320 : ℤ)) ^ 2 +
      ((((100 + 50 / 2 : ℕ) : ℤ)) - (240 : ℤ)) ^ 2 : ℤ)) = ((51250 : ℕ) : ℤ) := by
    norm_num
  rw [show ((⟨320, 240, 1, 0⟩ : CameraState).cx) = (320 : ℤ) from rfl,
    show ((⟨320, 240, 1, 0⟩ : CameraState).cy) = (240 : ℤ) from rfl, harg,
    Int.cast_natCast]
  exact momentumFactor_big (by norm_num)

lemma sA2 : scenarioAState 2 = ⟨294, 224, 766/625, 333/4000⟩ := by
  have hit : scenarioAState 2 = scenarioAStep (scenarioAState 1) :=
    Function.iterate_succ_apply' _ _ _
  rw [hit, sA1]
  show applyZoomToFace 2 ⟨310, 234, 28/25, 9/200⟩ 100 100 50 50 = _
  refine applyZoomToFace_eval 2 ⟨310, 234, 28/25, 9/200⟩ 100 100 50 50
    (3/10) (333/4000) (333/4000) (766/625) 294 224 ?_ (by norm_num) (by norm_num)
    (pyInt_eq (by norm_num) (by norm_num) (by norm_num))
    (pyInt_eq (by norm_num) (by norm_num) (by norm_num))
    (by norm_num)
  have harg : (((((100 + 50 / 2 : ℕ) : ℤ) - (310 : ℤ)) ^ 2 +
      ((((100 + 50 / 2 : ℕ) : ℤ)) - (234 : ℤ)) ^ 2 : ℤ)) = ((46106 : ℕ) : ℤ) := by
    norm_num
  rw [show ((⟨310, 234, 28/25, 9/200⟩ : CameraState).cx) = (310 : ℤ) from rfl,
    show ((⟨310, 234, 28/25, 9/200⟩ : CameraState).cy) = (234 : ℤ) from rfl, harg,
    Int.cast_natCast]
  exact momentumFactor_big (by norm_num)

lemma sA3 : scenarioAState 3 = ⟨274, 212, 20602/15625, 9261/80000⟩ := by
  have hit : scenarioAState 3 = scenarioAStep (scenarioAState 2) :=
    Function.iterate_succ_apply' _ _ _
  rw [hit, sA2]
  show applyZoomToFace 2 ⟨294, 224, 766/625, 333/4000⟩ 100 100 50 50 = _
  refine applyZoomToFace_eval 2 ⟨294, 224, 766/625, 333/4000⟩ 100 100 50 50
    (3/10) (9261/80000) (9261/80000) (20602/15625) 274 212 ?_ (by norm_num) (by norm_num)
    (pyInt_eq (by norm_num) (by norm_num) (by norm_num))
    (pyInt_eq (by norm_num) (by norm_num) (by norm_num))
    (by norm_num)
  have harg : (((((100 + 50 / 2 : ℕ) : ℤ) - (294 : ℤ)) ^ 2 +
      ((((100 + 50 / 2 : ℕ) : ℤ)) - (224 : ℤ)) ^ 2 : ℤ)) = ((38362 : ℕ) : ℤ) := by
    norm_num
  rw [show ((⟨294, 224, 766/625, 333/4000⟩ : CameraState).cx) = (294 : ℤ) from rfl,
    show ((⟨294, 224, 766/625, 333/4000⟩ : CameraState).cy) = (224 : ℤ) from rfl, harg,
    Int.cast_natCast]
  exact momentumFactor_big (by norm_num)

lemma sA4 : scenarioAState 4 = ⟨252, 199, 546994/390625, 229437/1600000⟩ := by
  have hit : scenarioAState 4 = scenarioAStep (scenarioAState 3) :=
    Function.iterate_succ_apply' _ _ _
  rw [hit, sA3]
  show applyZoomToFace 2 ⟨274, 212, 20602/15625, 9261/80000⟩ 100 100 50 50 = _
  refine applyZoomToFace_eval 2 ⟨274, 212, 20602/15625, 9261/80000⟩ 100 100 50 50
    (3/10) (229437/1600000) (229437/1600000) (546994/390625) 252 199 ?_ (by norm_num) (by norm_num)
    (pyInt_eq (by norm_num) (by norm_num) (by norm_num))
    (pyInt_eq (by norm_num) (by norm_num) (by norm_num))
    (by norm_num)
  have harg : (((((100 + 50 / 2 : ℕ) : ℤ) - (274 : ℤ)) ^ 2 +
      ((((100 + 50 / 2 : ℕ) : ℤ)) - (212 : ℤ)) ^ 2 : ℤ)) = ((29770 : ℕ) : ℤ) := by
    norm_num
  rw [show ((⟨274, 212, 20602/15625, 9261/80000⟩ : CameraState).cx) = (274 : ℤ) from rfl,
    show ((⟨274, 212, 20602/15625, 9261/80000⟩ : CameraState).cy) = (212 : ℤ) from rfl, harg,
    Int.cast_natCast]
  exact momentumFactor_big (by norm_num)

lemma sA5 : scenarioAState 5 = ⟨230, 186, 14377618/9765625, 5340429/32000000⟩ := by
  have hit : scenarioAState 5 = scenarioAStep (scenarioAState 4) :=
    Function.iterate_succ_apply' _ _ _
  rw [hit, sA4]
  show applyZoomToFace 2 ⟨252, 199, 546994/390625, 229437/1600000⟩ 100 100 50 50 = _
  refine applyZoomToFace_eval 2 ⟨252, 199, 546994/390625, 229437/1600000⟩ 100 100 50 50
    (3/10) (5340429/32000000) (5340429/32000000) (14377618/9765625) 230 186 ?_ (by norm_num) (by norm_num)
    (pyInt_eq (by norm_num) (by norm_num) (by norm_num))
    (pyInt_eq (by norm_num) (by norm_num) (by norm_num))
    (by norm_num)
  have harg : (((((100 + 50 / 2 : ℕ) : ℤ) - (252 : ℤ)) ^ 2 +
      ((((100 + 50 / 2 : ℕ) : ℤ)) - (199 : ℤ)) ^ 2 : ℤ)) = ((21605 : ℕ) : ℤ) := by
    norm_num
  rw [show ((⟨252, 199, 546994/390625, 229437/1600000⟩ : CameraState).cx) = (252 : ℤ) from rfl,
    show ((⟨252, 199, 546994/390625, 229437/1600000⟩ : CameraState).cy) = (199 : ℤ) from rfl, harg,
    Int.cast_natCast]
  exact momentumFactor_big (by norm_num)

lemma sA6 : scenarioAState 6 = ⟨210, 174, 374901346/244140625, 119587293/640000000⟩ := by
  have hit : scenarioAState 6 = scenarioAStep (scenarioAState 5) :=
    Function.iterate_succ_apply' _ _ _
  rw [hit, sA5]
  show applyZoomToFace 2 ⟨230, 186, 14377618/9765625, 5340429/32000000⟩ 100 100 50 50 = _
  refine applyZoomToFace_eval 2 ⟨230, 186, 14377618/9765625, 5340429/32000000⟩ 100 100 50 50
    (3/10) (119587293/640000000) (119587293/640000000) (374901346/244140625) 210 174 ?_ (by norm_num) (by norm_num)
    (pyInt_eq (by norm_num) (by norm_num) (by norm_num))
    (pyInt_eq (by norm_num) (by norm_num) (by norm_num))
    (by norm_num)
  have harg : (((((100 + 50 / 2 : ℕ) : ℤ) - (230 : ℤ)) ^ 2 +
      ((((100 + 50 / 2 : ℕ) : ℤ)) - (186 : ℤ)) ^ 2 : ℤ)) = ((14746 : ℕ) : ℤ) := by
    norm_num
  rw [show ((⟨230, 186, 14377618/9765625, 5340429/32000000⟩ : CameraState).cx) = (230 : ℤ) from rfl,
    show ((⟨230, 186, 14377618/9765625, 5340429/32000000⟩ : CameraState).cy) = (186 : ℤ) from rfl, harg,
    Int.cast_natCast]
  exact momentumFactor_big (by norm_num)

lemma sA7 : scenarioAState 7 = ⟨192, 164, 9712673362/6103515625, 2608983981/12800000000⟩ := by
  have hit : scenarioAState 7 = scenarioAStep (scenarioAState 6) :=
    Function.iterate_succ_apply' _ _ _
  rw [hit, sA6]
  show applyZoomToFace 2 ⟨210, 174, 374901346/244140625, 119587293/640000000⟩ 100 100 50 50 = _
  refine applyZoomToFace_eval 2 ⟨210, 174, 374901346/244140625, 119587293/640000000⟩ 100 100 50 50
    (3/10) (2608983981/12800000000) (2608983981/12800000000) (9712673362/6103515625) 192 164 ?_ (by norm_num) (by norm_num)
    (pyInt_eq (by norm_num) (by norm_num) (by norm_num))
    (pyInt_eq (by norm_num) (by norm_num) (by norm_num))
    (by norm_num)
  have harg : (((((100 + 50 / 2 : ℕ) : ℤ) - (210 : ℤ)) ^ 2 +
      ((((100 + 50 / 2 : ℕ) : ℤ)) - (174 : ℤ)) ^ 2 : ℤ)) = ((9626 : ℕ) : ℤ) := by
    norm_num
  rw [show ((⟨210, 174, 374901346/244140625, 119587293/640000000⟩ : CameraState).cx) = (210 : ℤ) from rfl,
    show ((⟨210, 174, 374901346/244140625, 119587293/640000000⟩ : CameraState).cy) = (174 : ℤ) from rfl, harg,
    Int.cast_natCast]
  exact momentumFactor_big (by norm_num)

lemma sA8 : scenarioAState 8 = ⟨177, 155, 250299907714/152587890625, 55872727677/256000000000⟩ := by
  have hit : scenarioAState 8 = scenarioAStep (scenarioAState 7) :=
    Function.iterate_succ_apply' _ _ _
  rw [hit, sA7]
  show applyZoomToFace 2 ⟨192, 164, 9712673362/6103515625, 2608983981/12800000000⟩ 100 100 50 50 = _
  refine applyZoomToFace_eval 2 ⟨192, 164, 9712673362/6103515625, 2608983981/12800000000⟩ 100 100 50 50
    (3/10) (55872727677/256000000000) (55872727677/256000000000) (250299907714/152587890625) 177 155 ?_ (by norm_num) (by norm_num)
    (pyInt_eq (by norm_num) (by norm_num) (by norm_num))
    (pyInt_eq (by norm_num) (by norm_num) (by norm_num))
    (by norm_num)
  have harg : (((((100 + 50 / 2 : ℕ) : ℤ) - (192 : ℤ)) ^ 2 +
      ((((100 + 50 / 2 : ℕ) : ℤ)) - (164 : ℤ)) ^ 2 : ℤ)) = ((6010 : ℕ) : ℤ) := by
    norm_num
  rw [show ((⟨192, 164, 9712673362/6103515625, 2608983981/12800000000⟩ : CameraState).cx) = (192 : ℤ) from rfl,
    show ((⟨192, 164, 9712673362/6103515625, 2608983981/12800000000⟩ : CameraState).cy) = (164 : ℤ) from rfl, harg,
    Int.cast_natCast]
  exact momentumFactor_big (by norm_num)

lemma sA9 : scenarioAState 9 = ⟨165, 148, 6422125313458/3814697265625, 1180236370509/5120000000000⟩ := by
  have hit : scenarioAState 9 = scenarioAStep (scenarioAState 8) :=
    Function.iterate_succ_apply' _ _ _
  rw [hit, sA8]
  show applyZoomToFace 2 ⟨177, 155, 250299907714/152587890625, 55872727677/256000000000⟩ 100 100 50 50 = _
  refine applyZoomToFace_eval 2 ⟨177, 155, 250299907714/152587890625, 55872727677/256000000000⟩ 100 100 50 50
    (3/10) (1180236370509/5120000000000) (1180236370509/5120000000000) (6422125313458/3814697265625) 165 148 ?_ (by norm_num) (by norm_num)
    (pyInt_eq (by norm_num) (by norm_num) (by norm_num))
    (pyInt_eq (by norm_num) (by norm_num) (by norm_num))
    (by norm_num)
  have harg : (((((100 + 50 / 2 : ℕ) : ℤ) - (177 : ℤ)) ^ 2 +
      ((((100 + 50 / 2 : ℕ) : ℤ)) - (155 : ℤ)) ^ 2 : ℤ)) = ((3604 : ℕ) : ℤ) := by
    norm_num
  rw [show ((⟨177, 155, 250299907714/152587890625, 55872727677/256000000000⟩ : CameraState).cx) = (177 : ℤ) from rfl,
    show ((⟨177, 155, 250299907714/152587890625, 55872727677/256000000000⟩ : CameraState).cy) = (155 : ℤ) from rfl, harg,
    Int.cast_natCast]
  exact momentumFactor_big (by norm_num)

lemma sA10 : scenarioAState 10 = ⟨156, 143, 164174940489826/95367431640625, 21292818298653/102400000000000⟩ := by
  have hit : scenarioAState 10 = scenarioAStep (scenarioAState 9) :=
    Function.iterate_succ_apply' _ _ _
  rw [hit, sA9]
  show applyZoomToFace 2 ⟨165, 148, 6422125313458/3814697265625, 1180236370509/5120000000000⟩ 100 100 50 50 = _
  refine applyZoomToFace_eval 2 ⟨165, 148, 6422125313458/3814697265625, 1180236370509/5120000000000⟩ 100 100 50 50
    (8/100) (21292818298653/102400000000000) (21292818298653/102400000000000) (164174940489826/95367431640625) 156 143 ?_ (by norm_num) (by norm_num)
    (pyInt_eq (by norm_num) (by norm_num) (by norm_num))
    (pyInt_eq (by norm_num) (by norm_num) (by norm_num))
    (by norm_num)
  have harg : (((((100 + 50 / 2 : ℕ) : ℤ) - (165 : ℤ)) ^ 2 +
      ((((100 + 50 / 2 : ℕ) : ℤ)) - (148 : ℤ)) ^ 2 : ℤ)) = ((2129 : ℕ) : ℤ) := by
    norm_num
  rw [show ((⟨165, 148, 6422125313458/3814697265625, 1180236370509/5120000000000⟩ : CameraState).cx) = (165 : ℤ) from rfl,
    show ((⟨165, 148, 6422125313458/3814697265625, 1180236370509/5120000000000⟩ : CameraState).cy) = (148 : ℤ) from rfl, harg,
    Int.cast_natCast]
  exact momentumFactor_small (show ((2129 : ℕ) : ℚ) ≤ 2500 by norm_num)


lemma pyInt_between {q : ℚ} {a b : ℤ} (h1 : (a : ℚ) ≤ q) (h2 : q ≤ (b : ℚ)) :
    a ≤ pyInt q ∧ pyInt q ≤ b := by
  unfold pyInt
  split
  · exact ⟨Int.le_floor.mpr h1, by
      have := Int.floor_le_floor h2
      rwa [Int.floor_intCast] at this⟩
  · exact ⟨by exact_mod_cast le_trans h1 (Int.le_ceil q), Int.ceil_le.mpr h2⟩

lemma convex_comb_between {a b t : ℚ} (h0 : 0 ≤ t) (h1 : t ≤ 1) :
    min a b ≤ (1 - t) * a + t * b ∧ (1 - t) * a + t * b ≤ max a b := by
  rcases le_total a b with h | h
  · rw [min_eq_left h, max_eq_right h]
    constructor <;> nlinarith
  · rw [min_eq_right h, max_eq_left h]
    constructor <;> nlinarith

/-- C4 counterexample: in the concrete 10-frame stationary scenario
(640x480 frame, detection `(100,100,50,50)` every frame,
`zoom_factor = 2.0`) the camera zoom after 10 frames is farther than 0.05
from 2.0 and the center is not `(125, 125)`. -/
theorem c4_counterexample :
    (1/20 : ℚ) < 2 - (scenarioAState 10).zoom ∧
    ((scenarioAState 10).cx, (scenarioAState 10).cy) ≠ ((125 : ℤ), (125 : ℤ)) := by
  rw [sA10]
  refine ⟨by norm_num, by simp⟩

/-- C4 (amended): after 10 frames of the stationary scenario the camera
state is exactly `(156, 143, 2 - 0.88^10, ...)`: the zoom
`2 - 0.88^10 = 1.7214990...` is within 0.28 of 2.0 (not 0.05), and the
center has moved from `(320, 240)` toward `(125, 125)` without reaching
it. -/
theorem c4_amended :
    scenarioAState 10 =
      ⟨156, 143, 164174940489826/95367431640625, 21292818298653/102400000000000⟩ ∧
    (scenarioAState 10).zoom = 2 - (22/25) ^ 10 ∧
    2 - (scenarioAState 10).zoom ≤ 28/100 := by
  refine ⟨sA10, ?_, ?_⟩ <;> rw [sA10] <;> norm_num

lemma cast_sq_dist (a b : ℕ) (cx cy : ℤ) :
    ((((a : ℤ) - cx) ^ 2 + ((b : ℤ) - cy) ^ 2 : ℤ) : ℚ)
      = ((a : ℚ) - (cx : ℚ)) ^ 2 + ((b : ℚ) - (cy : ℚ)) ^ 2 := by
  push_cast
  ring

/-- C5 counterexample: on a matched box the code truncates the new center
to an integer, so the camera does not advance exactly by the spec formula:
from center `(100,100)` with box `(100,100,2,2)` the code yields center
x-coordinate `100` while the claimed formula yields `100.05`. -/
theorem c5_counterexample :
    (applyZoomToFace 2 ⟨100, 100, 1, 0⟩ 100 100 2 2).cx = 100 ∧
    (specCameraAdvance 2 ⟨100, 100, 1, 0⟩ (101, 101)).cx = 2001/20 ∧
    ((100 : ℤ) : ℚ) ≠ (2001/20 : ℚ) := by
  refine ⟨?_, ?_, by norm_num⟩
  · rw [applyZoomToFace_eval 2 ⟨100, 100, 1, 0⟩ 100 100 2 2
      (8/100) (3/250) (1/20) (28/25) 100 100 ?_ (by norm_num) (by norm_num)
      (pyInt_eq (by norm_num) (by norm_num) (by norm_num))
      (pyInt_eq (by norm_num) (by norm_num) (by norm_num))
      (by norm_num)]
    exact momentumFactor_small (by norm_num)
  · simp only [specCameraAdvance]
    norm_num

/-- C5 (amended): the momentum-based camera step advances zoom and
momentum exactly by the spec formulas and the centers by the spec's convex
combination composed with `int()` truncation. -/
theorem c5_amended (zf : ℚ) (s : CameraState) (x y w h : ℕ) :
    applyZoomToFace zf s x y w h =
      { cx := pyInt (specCameraAdvance zf ⟨(s.cx : ℚ), (s.cy : ℚ), s.zoom, s.momentum⟩
          (((x + w / 2 : ℕ) : ℚ), ((y + h / 2 : ℕ) : ℚ))).cx,
        cy := pyInt (specCameraAdvance zf ⟨(s.cx : ℚ), (s.cy : ℚ), s.zoom, s.momentum⟩
          (((x + w / 2 : ℕ) : ℚ), ((y + h / 2 : ℕ) : ℚ))).cy,
        zoom := (specCameraAdvance zf ⟨(s.cx : ℚ), (s.cy : ℚ), s.zoom, s.momentum⟩
          (((x + w / 2 : ℕ) : ℚ), ((y + h / 2 : ℕ) : ℚ))).zoom,
        momentum := (specCameraAdvance zf ⟨(s.cx : ℚ), (s.cy : ℚ), s.zoom, s.momentum⟩
          (((x + w / 2 : ℕ) : ℚ), ((y + h / 2 : ℕ) : ℚ))).momentum } := by
  simp only [applyZoomToFace, specCameraAdvance, momentumFactor, Int.cast_natCast]
  rw [cast_sq_dist (x + w / 2) (y + h / 2) s.cx s.cy]


/-- C6: on every no-match frame the camera sets zoom to
`max(1.0, 0.92*zoom)`, multiplies momentum by 0.9, and moves each center
coordinate (through `int()`) between its old value and the frame center;
consequently across consecutive no-match frames from `zoom >= 1` the zoom
is monotonically non-increasing and never drops below 1. -/
theorem c6_no_match_decay (W H : ℕ) (s : CameraState) (hz : 1 ≤ s.zoom) :
    (handleNoObjects W H s).zoom = max 1 (s.zoom * (92/100)) ∧
    (handleNoObjects W H s).momentum = s.momentum * (9/10) ∧
    (min s.cx ((W / 2 : ℕ) : ℤ) ≤ (handleNoObjects W H s).cx ∧
      (handleNoObjects W H s).cx ≤ max s.cx ((W / 2 : ℕ) : ℤ)) ∧
    (min s.cy ((H / 2 : ℕ) : ℤ) ≤ (handleNoObjects W H s).cy ∧
      (handleNoObjects W H s).cy ≤ max s.cy ((H / 2 : ℕ) : ℤ)) ∧
    (∀ n : ℕ, 1 ≤ ((handleNoObjects W H)^[n] s).zoom ∧
      ((handleNoObjects W H)^[n + 1] s).zoom ≤ ((handleNoObjects W H)^[n] s).zoom) := by
  have hstep : ∀ t : CameraState, 1 ≤ t.zoom →
      1 ≤ (handleNoObjects W H t).zoom ∧ (handleNoObjects W H t).zoom ≤ t.zoom := by
    intro t ht
    constructor
    · exact le_max_left 1 _
    · exact max_le ht (by nlinarith)
  have hcenter : ∀ (c : ℤ) (c0 : ℤ),
      min c c0 ≤ pyInt ((1 - 2/100) * (c : ℚ) + (2/100) * (c0 : ℚ)) ∧
      pyInt ((1 - 2/100) * (c : ℚ) + (2/100) * (c0 : ℚ)) ≤ max c c0 := by
    intro c c0
    have hb := convex_comb_between (a := (c : ℚ)) (b := (c0 : ℚ))
      (t := 2/100) (by norm_num) (by norm_num)
    have h1 : ((min c c0 : ℤ) : ℚ) ≤ (1 - 2/100) * (c : ℚ) + (2/100) * (c0 : ℚ) := by
      push_cast
      exact hb.1
    have h2 : (1 - 2/100) * (c : ℚ) + (2/100) * (c0 : ℚ) ≤ ((max c c0 : ℤ) : ℚ) := by
      push_cast
      exact hb.2
    exact pyInt_between h1 h2
  refine ⟨rfl, rfl, hcenter s.cx _, hcenter s.cy _, ?_⟩
  intro n
  induction n with
  | zero => exact ⟨hz, (hstep s hz).2⟩
  | succ k ih =>
    have hk : 1 ≤ ((handleNoObjects W H)^[k + 1] s).zoom := by
      rw [Function.iterate_succ_apply']
      exact (hstep _ ih.1).1
    refine ⟨hk, ?_⟩
    rw [Function.iterate_succ_apply' (handleNoObjects W H) (k + 1) s]
    exact (hstep _ hk).2

/-- C6 witness: concrete instance at a 640x480 frame from zoom 2. -/
theorem c6_no_match_decay_witness :
    (1 : ℚ) ≤ (⟨320, 240, 2, 1⟩ : CameraState).zoom ∧
    (∀ n : ℕ, 1 ≤ ((handleNoObjects 640 480)^[n] (⟨320, 240, 2, 1⟩ : CameraState)).zoom ∧
      ((handleNoObjects 640 480)^[n + 1] (⟨320, 240, 2, 1⟩ : CameraState)).zoom ≤
        ((handleNoObjects 640 480)^[n] (⟨320, 240, 2, 1⟩ : CameraState)).zoom) :=
  ⟨by norm_num, (c6_no_match_decay 640 480 ⟨320, 240, 2, 1⟩ (by norm_num)).2.2.2.2⟩

/-- C7: for every center and every zoom at least 1 the crop rectangle of
`_apply_zoom` lies fully inside the frame. -/
theorem c7_crop_in_frame (W H : ℕ) (cx cy : ℤ) (zoom : ℚ) (hz : 1 ≤ zoom) :
    0 ≤ (applyZoomCrop W H cx cy zoom).1 ∧
    (applyZoomCrop W H cx cy zoom).1 + (applyZoomCrop W H cx cy zoom).2.2.1 ≤ (W : ℤ) ∧
    0 ≤ (applyZoomCrop W H cx cy zoom).2.1 ∧
    (applyZoomCrop W H cx cy zoom).2.1 + (applyZoomCrop W H cx cy zoom).2.2.2 ≤ (H : ℤ) := by
  have hsize : ∀ n : ℕ, 0 ≤ pyInt ((n : ℚ) / zoom) ∧ pyInt ((n : ℚ) / zoom) ≤ (n : ℤ) := by
    intro n
    have h0 : (0 : ℚ) ≤ (n : ℚ) / zoom := by positivity
    have h1 : (n : ℚ) / zoom ≤ ((n : ℤ) : ℚ) := by
      push_cast
      exact div_le_self (by positivity) hz
    exact pyInt_between (by exact_mod_cast h0) h1
  have hclamp : ∀ (c : ℤ) (n : ℕ) (sz : ℤ), 0 ≤ sz → sz ≤ (n : ℤ) →
      0 ≤ max 0 (min (c - sz / 2) ((n : ℤ) - sz)) ∧
      max 0 (min (c - sz / 2) ((n : ℤ) - sz)) + sz ≤ (n : ℤ) := by
    intro c n sz h0 hle
    refine ⟨le_max_left 0 _, ?_⟩
    have hx : max 0 (min (c - sz / 2) ((n : ℤ) - sz)) ≤ (n : ℤ) - sz :=
      max_le (by omega) (min_le_right _ _)
    omega
  obtain ⟨hw0, hwle⟩ := hsize W
  obtain ⟨hh0, hhle⟩ := hsize H
  obtain ⟨hx0, hxle⟩ := hclamp cx W _ hw0 hwle
  obtain ⟨hy0, hyle⟩ := hclamp cy H _ hh0 hhle
  exact ⟨hx0, hxle, hy0, hyle⟩

/-- C7 witness: concrete instance with the center at a frame corner and
zoom at the configured maximum. -/
theorem c7_crop_in_frame_witness :
    (1 : ℚ) ≤ 4 ∧
    (0 ≤ (applyZoomCrop 640 480 0 0 4).1 ∧
      (applyZoomCrop 640 480 0 0 4).1 + (applyZoomCrop 640 480 0 0 4).2.2.1 ≤ (640 : ℤ) ∧
      0 ≤ (applyZoomCrop 640 480 0 0 4).2.1 ∧
      (applyZoomCrop 640 480 0 0 4).2.1 + (applyZoomCrop 640 480 0 0 4).2.2.2 ≤ (480 : ℤ)) :=
  ⟨by norm_num, c7_crop_in_frame 640 480 0 0 4 (by norm_num)⟩


/-! Lemmas about the default selection rule and the matching loop. -/

lemma maxByFirst_mem (key : Detection → ℕ) (l : List Detection) :
    ∀ a, maxByFirst key a l = a ∨ maxByFirst key a l ∈ l := by
  induction l with
  | nil =>
    intro a
    left
    rfl
  | cons b t ih =>
    intro a
    have h : maxByFirst key a (b :: t)
        = maxByFirst key (if key a < key b then b else a) t := rfl
    rw [h]
    rcases ih (if key a < key b then b else a) with he | hm
    · rw [he]
      split
      · right
        exact List.mem_cons_self _ _
      · left
        rfl
    · right
      exact List.mem_cons_of_mem _ hm

lemma maxByFirst_le (key : Detection → ℕ) (l : List Detection) :
    ∀ a, key a ≤ key (maxByFirst key a l) ∧
      ∀ x ∈ l, key x ≤ key (maxByFirst key a l) := by
  induction l with
  | nil =>
    intro a
    exact ⟨le_refl _, by simp⟩
  | cons b t ih =>
    intro a
    have h : maxByFirst key a (b :: t)
        = maxByFirst key (if key a < key b then b else a) t := rfl
    rw [h]
    obtain ⟨h1, h2⟩ := ih (if key a < key b then b else a)
    refine ⟨le_trans ?_ h1, ?_⟩
    · split
      · next hlt => exact le_of_lt hlt
      · exact le_refl _
    · intro x hx
      rcases List.mem_cons.mp hx with rfl | hx2
      · refine le_trans ?_ h1
        split
        · exact le_refl _
        · next hnot => exact le_of_not_lt hnot
      · exact h2 x hx2

lemma findLargestPerson_spec (dets : List Detection) :
    (dets = [] → findLargestPerson dets = none) ∧
    (dets ≠ [] → ∃ m, findLargestPerson dets = some m ∧ m ∈ dets ∧
      ((∃ p ∈ dets, p.className = "person") →
        m.className = "person" ∧
        ∀ p ∈ dets, p.className = "person" → areaD p ≤ areaD m)) ∧
    ((∀ p ∈ dets, p.className ≠ "person") → findLargestPerson dets = dets.head?) := by
  refine ⟨?_, ?_, ?_⟩
  · rintro rfl
    rfl
  · intro hd
    obtain ⟨a, t, rfl⟩ := List.exists_cons_of_ne_nil hd
    rcases hf : (a :: t).filter (fun d => d.className = "person") with _ | ⟨p, ps⟩
    · have hres : findLargestPerson (a :: t) = some a := by
        unfold findLargestPerson
        rw [hf]
        rfl
      refine ⟨a, hres, List.mem_cons_self _ _, fun hex => ?_⟩
      obtain ⟨q, hq, hqp⟩ := hex
      have hqf : q ∈ (a :: t).filter (fun d => d.className = "person") :=
        List.mem_filter.mpr ⟨hq, by simp [hqp]⟩
      rw [hf] at hqf
      exact absurd hqf (List.not_mem_nil q)
    · have hres : findLargestPerson (a :: t) = some (maxByFirst areaD p ps) := by
        unfold findLargestPerson
        rw [hf]
      have hmem : ∀ x ∈ p :: ps, x ∈ a :: t ∧ x.className = "person" := by
        intro x hx
        have hxf : x ∈ (a :: t).filter (fun d => d.className = "person") := by
          rw [hf]
          exact hx
        exact ⟨List.mem_of_mem_filter hxf, by simpa using List.of_mem_filter hxf⟩
      have hmax_mem : maxByFirst areaD p ps ∈ p :: ps := by
        rcases maxByFirst_mem areaD ps p with he | hin
        · rw [he]
          exact List.mem_cons_self _ _
        · exact List.mem_cons_of_mem _ hin
      obtain ⟨hmd, hmp⟩ := hmem _ hmax_mem
      refine ⟨maxByFirst areaD p ps, hres, hmd, fun _ => ⟨hmp, ?_⟩⟩
      intro q hq hqp
      have hqf : q ∈ p :: ps := by
        have h2 : q ∈ (a :: t).filter (fun d => d.className = "person") :=
          List.mem_filter.mpr ⟨hq, by simp [hqp]⟩
        rw [hf] at h2
        exact h2
      rcases List.mem_cons.mp hqf with rfl | hq2
      · exact (maxByFirst_le areaD ps q).1
      · exact (maxByFirst_le areaD ps p).2 q hq2
  · intro hno
    rcases hf : dets.filter (fun d => d.className = "person") with _ | ⟨p, ps⟩
    · unfold findLargestPerson
      rw [hf]
    · exfalso
      have hpf : p ∈ dets.filter (fun d => d.className = "person") := by
        rw [hf]
        exact List.mem_cons_self _ _
      exact absurd (by simpa using List.of_mem_filter hpf)
        (hno p (List.mem_of_mem_filter hpf))

lemma trackStep_cases (fs : Detection → ℚ) (W H : ℕ) (hist : List (ℤ × ℤ))
    (acc : Option Detection × ℚ) (d : Detection) :
    trackStep fs W H hist acc d = acc ∨
      (trackStep fs W H hist acc d = (some d, combinedScore fs W H hist d) ∧
        regionNonempty W H d ∧
        trackingThreshold < combinedScore fs W H hist d) := by
  unfold trackStep
  split
  · next hv =>
    split
    · next hc => exact Or.inr ⟨rfl, hv, hc.2⟩
    · exact Or.inl rfl
  · exact Or.inl rfl

lemma trackStep_snd_mono (fs : Detection → ℚ) (W H : ℕ) (hist : List (ℤ × ℤ))
    (acc : Option Detection × ℚ) (d : Detection) :
    acc.2 ≤ (trackStep fs W H hist acc d).2 := by
  unfold trackStep
  split
  · split
    · next hc => exact le_of_lt hc.1
    · exact le_refl _
  · exact le_refl _

lemma trackStep_score_le (fs : Detection → ℚ) (W H : ℕ) (hist : List (ℤ × ℤ))
    (acc : Option Detection × ℚ) (d : Detection)
    (hv : regionNonempty W H d)
    (ht : trackingThreshold < combinedScore fs W H hist d) :
    combinedScore fs W H hist d ≤ (trackStep fs W H hist acc d).2 := by
  unfold trackStep
  rw [if_pos hv]
  by_cases hc : acc.2 < combinedScore fs W H hist d ∧
      trackingThreshold < combinedScore fs W H hist d
  · rw [if_pos hc]
  · rw [if_neg hc]
    by_contra h2
    push_neg at h2
    push_neg at hc
    exact absurd ht (not_lt.mpr (hc h2))

lemma trackLoop_fold_spec (fs : Detection → ℚ) (W H : ℕ) (hist : List (ℤ × ℤ)) :
    ∀ (dets : List Detection) (acc : Option Detection × ℚ),
      (List.foldl (trackStep fs W H hist) acc dets = acc ∨
        ∃ m ∈ dets,
          List.foldl (trackStep fs W H hist) acc dets
            = (some m, combinedScore fs W H hist m) ∧
          regionNonempty W H m ∧
          trackingThreshold < combinedScore fs W H hist m) ∧
      acc.2 ≤ (List.foldl (trackStep fs W H hist) acc dets).2 ∧
      (∀ d ∈ dets, regionNonempty W H d →
        trackingThreshold < combinedScore fs W H hist d →
        combinedScore fs W H hist d
          ≤ (List.foldl (trackStep fs W H hist) acc dets).2) := by
  intro dets
  induction dets with
  | nil =>
    intro acc
    exact ⟨Or.inl rfl, le_refl _, by simp⟩
  | cons d t ih =>
    intro acc
    have hfold : List.foldl (trackStep fs W H hist) acc (d :: t)
        = List.foldl (trackStep fs W H hist) (trackStep fs W H hist acc d) t := rfl
    obtain ⟨ih1, ih2, ih3⟩ := ih (trackStep fs W H hist acc d)
    refine ⟨?_, ?_, ?_⟩
    · rw [hfold]
      rcases ih1 with he | ⟨m, hm, hme, hmv, hmt⟩
      · rw [he]
        rcases trackStep_cases fs W H hist acc d with ha | ⟨ha, hv, ht⟩
        · exact Or.inl ha
        · exact Or.inr ⟨d, List.mem_cons_self _ _, ha, hv, ht⟩
      · exact Or.inr ⟨m, List.mem_cons_of_mem _ hm, hme, hmv, hmt⟩
    · rw [hfold]
      exact le_trans (trackStep_snd_mono fs W H hist acc d) ih2
    · intro e he hev het
      rw [hfold]
      rcases List.mem_cons.mp he with rfl | he2
      · exact le_trans (trackStep_score_le fs W H hist acc e hev het) ih2
      · exact ih3 e he2 hev het


lemma updateCenter_length (hist : List (ℤ × ℤ)) (c : ℤ × ℤ)
    (hlen : hist.length ≤ 10) : (updateCenter hist c).length ≤ 10 := by
  unfold updateCenter
  split
  · next hgt =>
    simp only [List.length_tail, List.length_append, List.length_singleton]
    omega
  · next hle =>
    simp only [List.length_append, List.length_singleton] at hle ⊢
    omega

/-- C1: engine construction yields a backend of exactly the requested
detection strategy, or fails with a configuration error exactly when the
requested strategy is object detection and its YOLO dependency is
unavailable; it never substitutes a backend of a different strategy. -/
theorem c1_construction_strategy (dt : DetectionType) (deps : DepsAvail) :
    (∀ b, constructBackend dt deps = .ok b → backendDomain b = dt) ∧
    ((∃ e, constructBackend dt deps = .error e) ↔
      dt = .objects ∧ deps.yolo = false) := by
  obtain ⟨m, mt, yv⟩ := deps
  cases dt <;> cases m <;> cases mt <;> cases yv <;>
    simp [constructBackend, backendDomain] <;>
    exact ⟨.yoloUnavailable, trivial⟩

/-- C1 witness: with no optional dependency available, object detection
fails at construction. -/
theorem c1_construction_strategy_witness :
    DetectionType.objects = DetectionType.objects ∧
    DepsAvail.yolo ⟨false, false, false⟩ = false ∧
    (∃ e, constructBackend .objects ⟨false, false, false⟩ = .error e) :=
  ⟨rfl, rfl,
    (c1_construction_strategy .objects ⟨false, false, false⟩).2.mpr ⟨rfl, rfl⟩⟩

/-- C2 counterexample: with no designated target the tracker's default
returns the largest-area person detection, not the highest
confidence-times-area detection: on two person detections with areas
100 and 400 and confidences 1 and 0.1, the code picks the area-400 one
while the claimed rule picks the other. -/
theorem c2_counterexample :
    (findTargetObject false (fun _ => 0) 640 480 []
        [⟨0, 0, 0, 10, 10, "person", 1⟩, ⟨1, 0, 0, 20, 20, "person", 1/10⟩]).1
      = some ⟨1, 0, 0, 20, 20, "person", 1/10⟩ ∧
    highestConfArea
        [⟨0, 0, 0, 10, 10, "person", 1⟩, ⟨1, 0, 0, 20, 20, "person", 1/10⟩]
      = some ⟨0, 0, 0, 10, 10, "person", 1⟩ ∧
    (⟨1, 0, 0, 20, 20, "person", 1/10⟩ : Detection)
      ≠ ⟨0, 0, 0, 10, 10, "person", 1⟩ := by
  refine ⟨?_, ?_, by simp⟩
  · norm_num [findTargetObject, findLargestPerson, maxByFirst, areaD,
      List.filter, List.foldl]
  · norm_num [highestConfArea, areaD, List.foldl]

/-- C2 (amended): with a null or unknown target (and on the no-match
fallback) the tracker returns the largest-area `person` detection, or the
first detection when none is labelled `person`, or null exactly when the
detection list is empty; in particular it never raises on an empty list. -/
theorem c2_amended (targetKnown : Bool) (fs : Detection → ℚ) (W H : ℕ)
    (hist : List (ℤ × ℤ)) (dets : List Detection) :
    ((findTargetObject targetKnown fs W H hist []).1 = none) ∧
    (dets ≠ [] → ∃ m, (findTargetObject false fs W H hist dets).1 = some m ∧
      m ∈ dets ∧
      ((∃ p ∈ dets, p.className = "person") →
        m.className = "person" ∧
        ∀ p ∈ dets, p.className = "person" → areaD p ≤ areaD m)) ∧
    ((∀ p ∈ dets, p.className ≠ "person") →
      (findTargetObject false fs W H hist dets).1 = dets.head?) := by
  refine ⟨?_, ?_, ?_⟩
  · cases targetKnown <;> rfl
  · intro hd
    obtain ⟨m, hm1, hm2, hm3⟩ := (findLargestPerson_spec dets).2.1 hd
    refine ⟨m, ?_, hm2, hm3⟩
    unfold findTargetObject
    rw [if_pos rfl]
    simp only [List.isEmpty_eq_true] at *
    rw [if_neg hd]
    exact hm1
  · intro hno
    unfold findTargetObject
    rw [if_pos rfl]
    rcases hdd : dets with _ | ⟨a, t⟩
    · rfl
    · rw [if_neg (by simp)]
      rw [← hdd]
      exact (findLargestPerson_spec dets).2.2 hno

/-- C2 witness: concrete no-target run on a two-person list. -/
theorem c2_amended_witness :
    ([⟨0, 0, 0, 10, 10, "person", 1⟩, ⟨1, 0, 0, 20, 20, "person", 1/10⟩]
        : List Detection) ≠ [] ∧
    (∃ m, (findTargetObject false (fun _ => 0) 640 480 []
        [⟨0, 0, 0, 10, 10, "person", 1⟩, ⟨1, 0, 0, 20, 20, "person", 1/10⟩]).1
        = some m ∧
      m ∈ ([⟨0, 0, 0, 10, 10, "person", 1⟩,
        ⟨1, 0, 0, 20, 20, "person", 1/10⟩] : List Detection) ∧
      ((∃ p ∈ ([⟨0, 0, 0, 10, 10, "person", 1⟩,
          ⟨1, 0, 0, 20, 20, "person", 1/10⟩] : List Detection),
          p.className = "person") →
        m.className = "person" ∧
        ∀ p ∈ ([⟨0, 0, 0, 10, 10, "person", 1⟩,
          ⟨1, 0, 0, 20, 20, "person", 1/10⟩] : List Detection),
          p.className = "person" → areaD p ≤ areaD m)) :=
  ⟨by simp,
    (c2_amended false (fun _ => 0) 640 480 []
      [⟨0, 0, 0, 10, 10, "person", 1⟩, ⟨1, 0, 0, 20, 20, "person", 1/10⟩]).2.1
      (by simp)⟩


/-- C3 counterexample: the face tracker, with a known target and a face
whose similarity score is below threshold, returns null instead of falling
back to the default rule (which on the same non-empty face list yields a
face); the fallback only happens in its caller. -/
theorem c3_counterexample :
    findTargetFace (fun _ => 0) true [(0, 0, 2, 2)] = none ∧
    findTargetFace (fun _ => 0) false [(0, 0, 2, 2)] = some (0, 0, 2, 2) := by
  constructor
  · norm_num [findTargetFace, List.foldl]
  · rfl

/-- C3 (amended): with a known target the object tracker scores each
detection having a non-empty crop as `0.6*s_feat + 0.4*s_pos` (with
`s_pos = 1` when there is no history), returns the candidate with the
highest combined score when some candidate exceeds the 0.3 threshold, and
otherwise falls back to the default rule; the face tracker instead uses
appearance only with threshold 0.6 and returns null on no match. -/
theorem c3_amended (fs : Detection → ℚ) (W H : ℕ) (hist : List (ℤ × ℤ))
    (dets : List Detection) :
    (∀ d, combinedScore fs W H hist d
        = (1 - 2/5) * fs d + (2/5) * positionScore W H hist d) ∧
    (∀ d, positionScore W H [] d = 1) ∧
    ((∃ d ∈ dets, regionNonempty W H d ∧
        trackingThreshold < combinedScore fs W H hist d) →
      ∃ m ∈ dets, (findTargetObject true fs W H hist dets).1 = some m ∧
        regionNonempty W H m ∧
        trackingThreshold < combinedScore fs W H hist m ∧
        ∀ d ∈ dets, regionNonempty W H d →
          combinedScore fs W H hist d ≤ combinedScore fs W H hist m) ∧
    ((∀ d ∈ dets, regionNonempty W H d →
        combinedScore fs W H hist d ≤ trackingThreshold) →
      (findTargetObject true fs W H hist dets).1 = findLargestPerson dets) := by
  have hopen : findTargetObject true fs W H hist dets
      = (match (List.foldl (trackStep fs W H hist) (none, 0) dets).1 with
         | some m => (some m, updateCenter hist (detCenter m))
         | none => (findLargestPerson dets, hist)) := rfl
  obtain ⟨f1, f2, f3⟩ := trackLoop_fold_spec fs W H hist dets (none, 0)
  refine ⟨fun d => by simp [combinedScore, positionWeight], fun d => rfl, ?_, ?_⟩
  · rintro ⟨d0, hd0, hv0, ht0⟩
    have hthr : trackingThreshold = 3/10 := rfl
    rcases f1 with he | ⟨m, hm, hme, hmv, hmt⟩
    · exfalso
      have hle := f3 d0 hd0 hv0 ht0
      rw [he] at hle
      rw [hthr] at ht0
      have : combinedScore fs W H hist d0 ≤ 0 := hle
      linarith
    · refine ⟨m, hm, ?_, hmv, hmt, ?_⟩
      · rw [hopen, hme]
      · intro d hd hv
        by_cases ht : trackingThreshold < combinedScore fs W H hist d
        · have hle := f3 d hd hv ht
          rw [hme] at hle
          exact hle
        · push_neg at ht
          exact le_of_lt (lt_of_le_of_lt ht hmt)
  · intro hall
    rcases f1 with he | ⟨m, hm, hme, hmv, hmt⟩
    · rw [hopen, he]
    · exact absurd hmt (not_lt.mpr (hall m hm hmv))

/-- C3 witness: with no history and similarity scores 0.9 and 0.1, the
object tracker selects the high-similarity detection; both candidates
clear the 0.3 threshold. -/
theorem c3_amended_witness :
    (∃ d ∈ ([⟨0, 0, 0, 10, 10, "person", 1⟩,
        ⟨1, 30, 30, 10, 10, "person", 1⟩] : List Detection),
      regionNonempty 640 480 d ∧
      trackingThreshold < combinedScore
        (fun d => if d.idx = 0 then 9/10 else 1/10) 640 480 [] d) ∧
    (∃ m ∈ ([⟨0, 0, 0, 10, 10, "person", 1⟩,
        ⟨1, 30, 30, 10, 10, "person", 1⟩] : List Detection),
      (findTargetObject true (fun d => if d.idx = 0 then 9/10 else 1/10)
          640 480 [] [⟨0, 0, 0, 10, 10, "person", 1⟩,
            ⟨1, 30, 30, 10, 10, "person", 1⟩]).1 = some m ∧
      regionNonempty 640 480 m ∧
      trackingThreshold < combinedScore
        (fun d => if d.idx = 0 then 9/10 else 1/10) 640 480 [] m ∧
      ∀ d ∈ ([⟨0, 0, 0, 10, 10, "person", 1⟩,
          ⟨1, 30, 30, 10, 10, "person", 1⟩] : List Detection),
        regionNonempty 640 480 d →
        combinedScore (fun d => if d.idx = 0 then 9/10 else 1/10) 640 480 [] d
          ≤ combinedScore (fun d => if d.idx = 0 then 9/10 else 1/10)
              640 480 [] m) := by
  have hd0 : regionNonempty 640 480 (⟨0, 0, 0, 10, 10, "person", 1⟩ : Detection) := by
    constructor <;> norm_num [regionRows, regionCols]
  have hsc : trackingThreshold < combinedScore
      (fun d => if d.idx = 0 then 9/10 else 1/10) 640 480 []
      ⟨0, 0, 0, 10, 10, "person", 1⟩ := by
    norm_num [trackingThreshold, combinedScore, positionWeight, positionScore,
      lastCenter]
  have hex : ∃ d ∈ ([⟨0, 0, 0, 10, 10, "person", 1⟩,
      ⟨1, 30, 30, 10, 10, "person", 1⟩] : List Detection),
      regionNonempty 640 480 d ∧
      trackingThreshold < combinedScore
        (fun d => if d.idx = 0 then 9/10 else 1/10) 640 480 [] d :=
    ⟨⟨0, 0, 0, 10, 10, "person", 1⟩, by simp, hd0, hsc⟩
  exact ⟨hex,
    (c3_amended (fun d => if d.idx = 0 then 9/10 else 1/10) 640 480 []
      [⟨0, 0, 0, 10, 10, "person", 1⟩,
        ⟨1, 30, 30, 10, 10, "person", 1⟩]).2.2.1 hex⟩

/-- C9 counterexample: the face tracker accepts a match (score 1 exceeds
its 0.6 threshold) while leaving the center history empty, whereas the
claimed behavior would append the accepted center `(1, 1)`. -/
theorem c9_counterexample :
    (findTargetFaceS (fun _ => 1) true [] [(0, 0, 2, 2)]).1 = some (0, 0, 2, 2) ∧
    (findTargetFaceS (fun _ => 1) true [] [(0, 0, 2, 2)]).2 = ([] : List (ℤ × ℤ)) ∧
    updateCenter [] ((1 : ℤ), (1 : ℤ)) = [((1 : ℤ), (1 : ℤ))] := by
  refine ⟨?_, rfl, ?_⟩
  · norm_num [findTargetFaceS, findTargetFace, List.foldl]
  · norm_num [updateCenter]

/-- C9 (amended): the object tracker's history after any operation is the
old history (no acceptance) or the old history with the accepted
detection's center appended and the oldest entry evicted beyond 10
entries; starting from a history of at most 10 entries it always holds at
most 10 entries. -/
theorem c9_amended (targetKnown : Bool) (fs : Detection → ℚ) (W H : ℕ)
    (hist : List (ℤ × ℤ)) (dets : List Detection)
    (hlen : hist.length ≤ 10) :
    ((findTargetObject targetKnown fs W H hist dets).2.length ≤ 10) ∧
    ((findTargetObject targetKnown fs W H hist dets).2 = hist ∨
      ∃ m ∈ dets, (findTargetObject targetKnown fs W H hist dets).1 = some m ∧
        (findTargetObject targetKnown fs W H hist dets).2
          = updateCenter hist (detCenter m)) := by
  cases targetKnown with
  | false => exact ⟨hlen, Or.inl rfl⟩
  | true =>
    have hopen : findTargetObject true fs W H hist dets
        = (match (List.foldl (trackStep fs W H hist) (none, 0) dets).1 with
           | some m => (some m, updateCenter hist (detCenter m))
           | none => (findLargestPerson dets, hist)) := rfl
    obtain ⟨f1, f2, f3⟩ := trackLoop_fold_spec fs W H hist dets (none, 0)
    rcases f1 with he | ⟨m, hm, hme, hmv, hmt⟩
    · rw [hopen, he]
      exact ⟨hlen, Or.inl rfl⟩
    · rw [hopen, hme]
      exact ⟨updateCenter_length hist _ hlen, Or.inr ⟨m, hm, rfl, rfl⟩⟩

/-- C9 witness: concrete run with a full 10-entry history. -/
theorem c9_amended_witness :
    (List.replicate 10 ((0 : ℤ), (0 : ℤ))).length ≤ 10 ∧
    ((findTargetObject false (fun _ => 0) 640 480
        (List.replicate 10 ((0 : ℤ), (0 : ℤ))) []).2.length ≤ 10 ∧
      ((findTargetObject false (fun _ => 0) 640 480
          (List.replicate 10 ((0 : ℤ), (0 : ℤ))) []).2
          = List.replicate 10 ((0 : ℤ), (0 : ℤ)) ∨
        ∃ m ∈ ([] : List Detection),
          (findTargetObject false (fun _ => 0) 640 480
            (List.replicate 10 ((0 : ℤ), (0 : ℤ))) []).1 = some m ∧
          (findTargetObject false (fun _ => 0) 640 480
            (List.replicate 10 ((0 : ℤ), (0 : ℤ))) []).2
            = updateCenter (List.replicate 10 ((0 : ℤ), (0 : ℤ))) (detCenter m))) :=
  ⟨by simp, c9_amended false (fun _ => 0) 640 480
    (List.replicate 10 ((0 : ℤ), (0 : ℤ))) [] (by simp)⟩


/-! Lemmas about the region-blur folds. -/

lemma blur_preserve_target (blurFn : (ℕ × ℕ → ℤ) → (ℕ × ℕ → ℤ)) (W H : ℕ)
    (target : Detection) :
    ∀ (dets : List Detection) (f : ℕ × ℕ → ℤ) (p : ℕ × ℕ),
      (∀ d ∈ dets, d ≠ target → ¬inRegion W H d p) →
      (dets.foldl
        (fun g d => if d ≠ target then blurRegion blurFn W H g d else g) f) p
        = f p := by
  intro dets
  induction dets with
  | nil =>
    intro f p _
    rfl
  | cons d t ih =>
    intro f p hp
    rw [List.foldl_cons]
    by_cases hd : d ≠ target
    · rw [if_pos hd]
      rw [ih _ p fun e he het => hp e (List.mem_cons_of_mem _ he) het]
      unfold blurRegion
      rw [if_neg (hp d (List.mem_cons_self _ _) hd)]
    · rw [if_neg hd]
      exact ih _ p fun e he het => hp e (List.mem_cons_of_mem _ he) het

lemma blur_preserve_all (blurFn : (ℕ × ℕ → ℤ) → (ℕ × ℕ → ℤ)) (W H : ℕ) :
    ∀ (dets : List Detection) (f : ℕ × ℕ → ℤ) (p : ℕ × ℕ),
      (∀ d ∈ dets, ¬inRegion W H d p) →
      (dets.foldl (fun g d => blurRegion blurFn W H g d) f) p = f p := by
  intro dets
  induction dets with
  | nil =>
    intro f p _
    rfl
  | cons d t ih =>
    intro f p hp
    rw [List.foldl_cons]
    rw [ih _ p fun e he => hp e (List.mem_cons_of_mem _ he)]
    unfold blurRegion
    rw [if_neg (hp d (List.mem_cons_self _ _))]

lemma blurMarked_fst_target (blurFn : (ℕ × ℕ → ℤ) → (ℕ × ℕ → ℤ)) (W H : ℕ)
    (target : Detection) :
    ∀ (dets : List Detection) (f : ℕ × ℕ → ℤ) (mask : ℕ × ℕ → Bool),
      (dets.foldl
        (fun (fm : (ℕ × ℕ → ℤ) × (ℕ × ℕ → Bool)) d =>
          if d ≠ target then
            (blurRegion blurFn W H fm.1 d,
              fun p => fm.2 p || decide (inRegion W H d p))
          else fm)
        (f, mask)).1
      = dets.foldl
          (fun g d => if d ≠ target then blurRegion blurFn W H g d else g) f := by
  intro dets
  induction dets with
  | nil =>
    intro f mask
    rfl
  | cons d t ih =>
    intro f mask
    rw [List.foldl_cons, List.foldl_cons]
    by_cases hd : d ≠ target
    · rw [if_pos hd, if_pos hd]
      exact ih _ _
    · rw [if_neg hd, if_neg hd]
      exact ih _ _

lemma blurMarked_fst_all (blurFn : (ℕ × ℕ → ℤ) → (ℕ × ℕ → ℤ)) (W H : ℕ) :
    ∀ (dets : List Detection) (f : ℕ × ℕ → ℤ) (mask : ℕ × ℕ → Bool),
      (dets.foldl
        (fun (fm : (ℕ × ℕ → ℤ) × (ℕ × ℕ → Bool)) d =>
          (blurRegion blurFn W H fm.1 d,
            fun p => fm.2 p || decide (inRegion W H d p)))
        (f, mask)).1
      = dets.foldl (fun g d => blurRegion blurFn W H g d) f := by
  intro dets
  induction dets with
  | nil =>
    intro f mask
    rfl
  | cons d t ih =>
    intro f mask
    rw [List.foldl_cons, List.foldl_cons]
    exact ih _ _

lemma blurMarked_mask_mono_target (blurFn : (ℕ × ℕ → ℤ) → (ℕ × ℕ → ℤ))
    (W H : ℕ) (target : Detection) :
    ∀ (dets : List Detection) (f : ℕ × ℕ → ℤ) (mask : ℕ × ℕ → Bool)
      (p : ℕ × ℕ), mask p = true →
      ((dets.foldl
        (fun (fm : (ℕ × ℕ → ℤ) × (ℕ × ℕ → Bool)) d =>
          if d ≠ target then
            (blurRegion blurFn W H fm.1 d,
              fun q => fm.2 q || decide (inRegion W H d q))
          else fm)
        (f, mask)).2) p = true := by
  intro dets
  induction dets with
  | nil =>
    intro f mask p hp
    exact hp
  | cons d t ih =>
    intro f mask p hp
    rw [List.foldl_cons]
    by_cases hd : d ≠ target
    · rw [if_pos hd]
      exact ih _ _ p (by simp [hp])
    · rw [if_neg hd]
      exact ih _ _ p hp

lemma blurMarked_mask_mono_all (blurFn : (ℕ × ℕ → ℤ) → (ℕ × ℕ → ℤ))
    (W H : ℕ) :
    ∀ (dets : List Detection) (f : ℕ × ℕ → ℤ) (mask : ℕ × ℕ → Bool)
      (p : ℕ × ℕ), mask p = true →
      ((dets.foldl
        (fun (fm : (ℕ × ℕ → ℤ) × (ℕ × ℕ → Bool)) d =>
          (blurRegion blurFn W H fm.1 d,
            fun q => fm.2 q || decide (inRegion W H d q)))
        (f, mask)).2) p = true := by
  intro dets
  induction dets with
  | nil =>
    intro f mask p hp
    exact hp
  | cons d t ih =>
    intro f mask p hp
    rw [List.foldl_cons]
    exact ih _ _ p (by simp [hp])

lemma blurMarked_covers_target (blurFn : (ℕ × ℕ → ℤ) → (ℕ × ℕ → ℤ))
    (W H : ℕ) (target : Detection) :
    ∀ (dets : List Detection) (f : ℕ × ℕ → ℤ) (mask : ℕ × ℕ → Bool)
      (e : Detection), e ∈ dets → e ≠ target →
      ∀ p : ℕ × ℕ, inRegion W H e p →
      ((dets.foldl
        (fun (fm : (ℕ × ℕ → ℤ) × (ℕ × ℕ → Bool)) d =>
          if d ≠ target then
            (blurRegion blurFn W H fm.1 d,
              fun q => fm.2 q || decide (inRegion W H d q))
          else fm)
        (f, mask)).2) p = true := by
  intro dets
  induction dets with
  | nil =>
    intro f mask e he
    exact absurd he (List.not_mem_nil e)
  | cons d t ih =>
    intro f mask e he het p hp
    rw [List.foldl_cons]
    rcases List.mem_cons.mp he with rfl | he2
    · rw [if_pos het]
      exact blurMarked_mask_mono_target blurFn W H target t _ _ p
        (by simp [hp])
    · by_cases hd : d ≠ target
      · rw [if_pos hd]
        exact ih _ _ e he2 het p hp
      · rw [if_neg hd]
        exact ih _ _ e he2 het p hp

lemma blurMarked_covers_all (blurFn : (ℕ × ℕ → ℤ) → (ℕ × ℕ → ℤ)) (W H : ℕ) :
    ∀ (dets : List Detection) (f : ℕ × ℕ → ℤ) (mask : ℕ × ℕ → Bool)
      (e : Detection), e ∈ dets →
      ∀ p : ℕ × ℕ, inRegion W H e p →
      ((dets.foldl
        (fun (fm : (ℕ × ℕ → ℤ) × (ℕ × ℕ → Bool)) d =>
          (blurRegion blurFn W H fm.1 d,
            fun q => fm.2 q || decide (inRegion W H d q)))
        (f, mask)).2) p = true := by
  intro dets
  induction dets with
  | nil =>
    intro f mask e he
    exact absurd he (List.not_mem_nil e)
  | cons d t ih =>
    intro f mask e he p hp
    rw [List.foldl_cons]
    rcases List.mem_cons.mp he with rfl | he2
    · exact blurMarked_mask_mono_all blurFn W H t _ _ p (by simp [hp])
    · exact ih _ _ e he2 p hp


/-- C8 counterexample: in exclude-target mode with a second detection
whose box overlaps the target's box, the pixel `(1, 1)` inside the
target's box is overwritten by the other box's blur (here a blur model
writing 99), so it is not unchanged from the pre-blur frame (value 11). -/
theorem c8_counterexample :
    applyBlurToObjects (fun _ => fun _ => 99) 4 4
      (fun p => (p.1 : ℤ) + 10 * (p.2 : ℤ))
      [⟨0, 0, 0, 2, 2, "person", 1⟩, ⟨1, 1, 1, 2, 2, "person", 1⟩]
      true ⟨0, 0, 0, 2, 2, "person", 1⟩ (1, 1) = 99 ∧
    (fun p => (p.1 : ℤ) + 10 * (p.2 : ℤ)) ((1 : ℕ), (1 : ℕ)) = 11 ∧
    inRegion 4 4 ⟨0, 0, 0, 2, 2, "person", 1⟩ (1, 1) ∧
    (99 : ℤ) ≠ 11 := by
  refine ⟨?_, by norm_num, ?_, by norm_num⟩
  · simp [applyBlurToObjects, blurRegion, inRegion, List.foldl]
  · unfold inRegion
    norm_num

/-- C8 (amended): in exclude-target mode every non-target detection's
region receives a blur write, every pixel not covered by any non-target
region (in particular target-box pixels not overlapped by another
detection, and pixels outside all boxes) is unchanged, and with zero
detections the frame is unchanged; the instrumented fold computes the same
frame. -/
theorem c8_amended (blurFn : (ℕ × ℕ → ℤ) → (ℕ × ℕ → ℤ)) (W H : ℕ)
    (frame : ℕ × ℕ → ℤ) (dets : List Detection) (target : Detection) :
    (∀ p, (∀ d ∈ dets, d ≠ target → ¬inRegion W H d p) →
      applyBlurToObjects blurFn W H frame dets true target p = frame p) ∧
    (∀ d ∈ dets, d ≠ target → ∀ p, inRegion W H d p →
      (applyBlurMarked blurFn W H frame dets true target).2 p = true) ∧
    (dets = [] → applyBlurToObjects blurFn W H frame dets true target = frame) ∧
    (applyBlurMarked blurFn W H frame dets true target).1
      = applyBlurToObjects blurFn W H frame dets true target := by
  refine ⟨?_, ?_, ?_, ?_⟩
  · intro p hp
    exact blur_preserve_target blurFn W H target dets frame p hp
  · intro d hd hdt p hp
    exact blurMarked_covers_target blurFn W H target dets frame _ d hd hdt p hp
  · rintro rfl
    rfl
  · exact blurMarked_fst_target blurFn W H target dets frame _

/-- C8 witness: concrete two-detection exclude-target run; the pixel
`(3, 3)` lies outside the non-target region and is preserved. -/
theorem c8_amended_witness :
    (∀ d ∈ ([⟨0, 0, 0, 2, 2, "person", 1⟩,
        ⟨1, 1, 1, 2, 2, "person", 1⟩] : List Detection),
      d ≠ ⟨0, 0, 0, 2, 2, "person", 1⟩ → ¬inRegion 4 4 d ((3 : ℕ), (3 : ℕ))) ∧
    applyBlurToObjects (fun _ => fun _ => 99) 4 4
      (fun p => (p.1 : ℤ) + 10 * (p.2 : ℤ))
      [⟨0, 0, 0, 2, 2, "person", 1⟩, ⟨1, 1, 1, 2, 2, "person", 1⟩]
      true ⟨0, 0, 0, 2, 2, "person", 1⟩ ((3 : ℕ), (3 : ℕ))
      = (fun p => (p.1 : ℤ) + 10 * (p.2 : ℤ)) ((3 : ℕ), (3 : ℕ)) := by
  have hout : ∀ d ∈ ([⟨0, 0, 0, 2, 2, "person", 1⟩,
      ⟨1, 1, 1, 2, 2, "person", 1⟩] : List Detection),
      d ≠ ⟨0, 0, 0, 2, 2, "person", 1⟩ → ¬inRegion 4 4 d ((3 : ℕ), (3 : ℕ)) := by
    intro d hd hdt
    rcases List.mem_cons.mp hd with rfl | hd2
    · exact absurd rfl hdt
    · rcases List.mem_cons.mp hd2 with rfl | hd3
      · unfold inRegion
        norm_num
      · exact absurd hd3 (List.not_mem_nil d)
  exact ⟨hout,
    (c8_amended (fun _ => fun _ => 99) 4 4
      (fun p => (p.1 : ℤ) + 10 * (p.2 : ℤ))
      [⟨0, 0, 0, 2, 2, "person", 1⟩, ⟨1, 1, 1, 2, 2, "person", 1⟩]
      ⟨0, 0, 0, 2, 2, "person", 1⟩).1 _ hout⟩

/-- C10: with blur enabled and no designated target, every detected box
region (clipped to the frame) receives a blur write — no detected region
is left unblurred — while pixels outside all detected regions are
unchanged; the instrumented fold computes the same frame. -/
theorem c10_blur_all_regions (blurFn : (ℕ × ℕ → ℤ) → (ℕ × ℕ → ℤ)) (W H : ℕ)
    (frame : ℕ × ℕ → ℤ) (dets : List Detection) (target : Detection) :
    (∀ d ∈ dets, ∀ p, inRegion W H d p →
      (applyBlurMarked blurFn W H frame dets false target).2 p = true) ∧
    (∀ p, (∀ d ∈ dets, ¬inRegion W H d p) →
      applyBlurToObjects blurFn W H frame dets false target p = frame p) ∧
    (applyBlurMarked blurFn W H frame dets false target).1
      = applyBlurToObjects blurFn W H frame dets false target := by
  refine ⟨?_, ?_, ?_⟩
  · intro d hd p hp
    exact blurMarked_covers_all blurFn W H dets frame _ d hd p hp
  · intro p hp
    exact blur_preserve_all blurFn W H dets frame p hp
  · exact blurMarked_fst_all blurFn W H dets frame _

/-- C10 witness: concrete target-less run; the default most prominent
detection's own region pixel `(0, 0)` is marked blurred. -/
theorem c10_blur_all_regions_witness :
    (⟨0, 0, 0, 2, 2, "person", 1⟩ : Detection)
      ∈ ([⟨0, 0, 0, 2, 2, "person", 1⟩] : List Detection) ∧
    inRegion 4 4 (⟨0, 0, 0, 2, 2, "person", 1⟩ : Detection) ((0 : ℕ), (0 : ℕ)) ∧
    (applyBlurMarked (fun _ => fun _ => 99) 4 4
      (fun p => (p.1 : ℤ) + 10 * (p.2 : ℤ))
      [⟨0, 0, 0, 2, 2, "person", 1⟩] false
      ⟨0, 0, 0, 2, 2, "person", 1⟩).2 ((0 : ℕ), (0 : ℕ)) = true := by
  have hmem : (⟨0, 0, 0, 2, 2, "person", 1⟩ : Detection)
      ∈ ([⟨0, 0, 0, 2, 2, "person", 1⟩] : List Detection) :=
    List.mem_cons_self _ _
  have hin : inRegion 4 4 (⟨0, 0, 0, 2, 2, "person", 1⟩ : Detection)
      ((0 : ℕ), (0 : ℕ)) := by
    unfold inRegion
    norm_num
  exact ⟨hmem, hin,
    (c10_blur_all_regions (fun _ => fun _ => 99) 4 4
      (fun p => (p.1 : ℤ) + 10 * (p.2 : ℤ))
      [⟨0, 0, 0, 2, 2, "person", 1⟩]
      ⟨0, 0, 0, 2, 2, "person", 1⟩).1 _ hmem _ hin⟩

end VideoCursor

